import Mathlib

/-!
Verification development for the dokploy-vscode log-stream pipeline
(`src/views/logs-webview.ts` and `src/extension.ts`).

Strings are modelled as `List Char` (JavaScript strings are sequences of
code units; all inputs relevant here are plain scalar text).  JavaScript
regular-expression character classes are restricted to their ASCII parts
(`\s`, `\d`, `\w`); no claim depends on the non-ASCII members.  Machine
time values (`Date.getTime()`) are modelled as `Int` milliseconds since
the Unix epoch; `null`/`NaN` results are modelled with `Option`.  The
host time zone (used by `new Date` on zone-less strings and by the local
`get*` accessors) is a parameter `tz : Int`, the local offset east of
UTC in minutes.
-/

/-- Set of ASCII whitespace characters matched by the JavaScript class
`\s` (the non-ASCII members are not modelled). -/
def jsWs (c : Char) : Bool :=
  c == ' ' || c == '\t' || c == '\n' || c == '\r' || c == '\x0b' || c == '\x0c'

/-- JavaScript word characters, the class `\w` = `[A-Za-z0-9_]`. -/
def isWordChar (c : Char) : Bool :=
  (('a' ≤ c && c ≤ 'z') || ('A' ≤ c && c ≤ 'Z') || c.isDigit || c == '_')

/-- Numeric value of a list of decimal digit characters (most significant
first), as computed by JavaScript number parsing of a digit run. -/
def digitsToNat (l : List Char) : Nat :=
  l.foldl (fun n c => n * 10 + (c.toNat - 48)) 0

/-- Test whether `pat` begins `l` (used to locate occurrences for
`String.prototype.replace` with a string pattern). -/
def listStartsWith : List Char → List Char → Bool
  | [], _ => true
  | _ :: _, [] => false
  | p :: ps, c :: cs => p == c && listStartsWith ps cs

/-- JavaScript `s.replace(pat, repl)` with a string pattern: replaces the
first occurrence of `pat`, if any. -/
def jsReplaceFirst (pat repl : List Char) : List Char → List Char
  | [] => if pat.isEmpty then repl else []
  | c :: rest =>
    if listStartsWith pat (c :: rest) then repl ++ (c :: rest).drop pat.length
    else c :: jsReplaceFirst pat repl rest

/-- JavaScript `s.replace(/c/g, r)`: global replacement of a single
character. -/
def replaceAllChar (c : Char) (r : List Char) : List Char → List Char
  | [] => []
  | x :: xs => (if x == c then r else [x]) ++ replaceAllChar c r xs

/-- JavaScript `String.prototype.trim` (ASCII whitespace part). -/
def jsTrim (l : List Char) : List Char :=
  ((l.dropWhile jsWs).reverse.dropWhile jsWs).reverse

/-- JavaScript `s.split('\n')` on character lists: always returns at least
one (possibly empty) piece, and a trailing separator yields a trailing
empty piece, exactly as in JavaScript. -/
def splitLines : List Char → List (List Char)
  | [] => [[]]
  | c :: rest =>
    if c = '\n' then [] :: splitLines rest
    else
      match splitLines rest with
      | [] => [[c]]
      | l :: ls => (c :: l) :: ls

/-- Prepend `x` to the first piece of a piece list (helper for reasoning
about `splitLines` over concatenations). -/
def consHead (x : List Char) : List (List Char) → List (List Char)
  | [] => [x]
  | h :: t => (x ++ h) :: t

/-- Glue two piece lists: the last piece of the first list is joined with
the first piece of the second (helper for `splitLines` over `++`). -/
def joinLast : List (List Char) → List (List Char) → List (List Char)
  | [], ys => ys
  | [x], ys => consHead x ys
  | x :: xs, ys => x :: joinLast xs ys

/-- Consume exactly `n` decimal digits, as the regex fragment `\d{n}`. -/
def takeDigits : Nat → List Char → Option (List Char × List Char)
  | 0, l => some ([], l)
  | _ + 1, [] => none
  | n + 1, c :: rest =>
    if c.isDigit then
      match takeDigits n rest with
      | none => none
      | some (ds, r) => some (c :: ds, r)
    else none

/-- First-success choice between two optional results (regex alternation
order). -/
def orOpt {α : Type} (a b : Option α) : Option α :=
  match a with
  | some v => some v
  | none => b

/-! Proleptic Gregorian calendar arithmetic.

Shared numeric base for the ECMAScript date-string interpretation and the
specification-side UTC denotation of a timestamp. -/

/-- Gregorian leap-year rule. -/
def isLeapYear (y : Nat) : Bool :=
  (y % 4 == 0 && y % 100 != 0) || y % 400 == 0

/-- Month lengths, February depending on leapness. -/
def monthLengths (leap : Bool) : List Nat :=
  [31, if leap then 29 else 28, 31, 30, 31, 30, 31, 31, 30, 31, 30, 31]

/-- Days in the given month (1-based) of the given year. -/
def daysInMonth (y mo : Nat) : Nat :=
  (monthLengths (isLeapYear y)).getD (mo - 1) 0

/-- Days of the year before the first day of month `mo` (1-based). -/
def monthDaysBefore (leap : Bool) (mo : Nat) : Nat :=
  ((monthLengths leap).take (mo - 1)).foldr (· + ·) 0

/-- Number of leap years in the interval `[0, y)`. -/
def leapsBefore (y : Nat) : Nat :=
  (y + 3) / 4 - (y + 99) / 100 + (y + 399) / 400

/-- Days from 0000-01-01 to the first day of year `y` (proleptic
Gregorian). -/
def daysBeforeYear (y : Nat) : Nat :=
  365 * y + leapsBefore y

/-- Day number of the civil date `y-mo-d` counted from 0000-01-01. -/
def civilDays (y mo d : Nat) : Nat :=
  daysBeforeYear y + monthDaysBefore (isLeapYear y) mo + (d - 1)

/-- Day number of 1970-01-01 counted from 0000-01-01. -/
def epochDayOffset : Nat := 719528

/-- UTC milliseconds since the Unix epoch of the given date-time fields
read as a UTC instant. -/
def utcMsOfFields (y mo d h mi s ms : Nat) : Int :=
  ((civilDays y mo d : Int) - (epochDayOffset : Int)) * 86400000
    + (h : Int) * 3600000 + (mi : Int) * 60000 + (s : Int) * 1000 + (ms : Int)

/-- Field validity as checked by ECMAScript `Date` parsing of a
date-time string: months 1..12, days within the month, minutes and
seconds 0..59, hours 0..23 with the special legal value 24:00:00.000. -/
def validDateTime (y mo d h mi s ms : Nat) : Bool :=
  decide (1 ≤ mo) && decide (mo ≤ 12) && decide (1 ≤ d) &&
  decide (d ≤ daysInMonth y mo) && decide (mi ≤ 59) && decide (s ≤ 59) &&
  (decide (h ≤ 23) || (h == 24 && mi == 0 && s == 0 && ms == 0))

/-- Millisecond value of a fractional-seconds digit run: the first three
digits, right-padded with zeros (ECMAScript/V8 behaviour). -/
def msOfFrac (ds : List Char) : Nat :=
  digitsToNat ((ds ++ [ '0', '0', '0' ]).take 3)

/-! The leading-timestamp pattern of `parseLogLine`.

Source regex (`logs-webview.ts`):
`^(\d{4}-\d{2}-\d{2}[T ]\d{2}:\d{2}:\d{2}(?:\.\d+)?(?:Z| UTC)?)\s+(.*)$`.
The matcher below is a direct transcription, including the backtracking
order of the two optional groups and of `\s+` against `(.*)$`. -/

/-- Parts of the mandatory core `\d{4}-\d{2}-\d{2}[T ]\d{2}:\d{2}:\d{2}`
of the timestamp pattern. -/
structure TsCore where
  yd : List Char
  md : List Char
  dd : List Char
  sep : Char
  hd : List Char
  mid : List Char
  sd : List Char
deriving DecidableEq

/-- Scan the mandatory timestamp core at the head of the input. -/
def scanCore (l : List Char) : Option (TsCore × List Char) :=
  match takeDigits 4 l with
  | none => none
  | some (yd, r1) =>
    match r1 with
    | '-' :: r2 =>
      match takeDigits 2 r2 with
      | none => none
      | some (md, r3) =>
        match r3 with
        | '-' :: r4 =>
          match takeDigits 2 r4 with
          | none => none
          | some (dd, r5) =>
            match r5 with
            | sep :: r6 =>
              if sep == 'T' || sep == ' ' then
                match takeDigits 2 r6 with
                | none => none
                | some (hd, r7) =>
                  match r7 with
                  | ':' :: r8 =>
                    match takeDigits 2 r8 with
                    | none => none
                    | some (mid, r9) =>
                      match r9 with
                      | ':' :: r10 =>
                        match takeDigits 2 r10 with
                        | none => none
                        | some (sd, r11) =>
                          some (⟨yd, md, dd, sep, hd, mid, sd⟩, r11)
                      | _ => none
                  | _ => none
              else none
            | [] => none
        | _ => none
    | _ => none

/-- Text of a timestamp core with an explicit separator character. -/
def renderCoreSep (c : TsCore) (sep : Char) : List Char :=
  c.yd ++ '-' :: (c.md ++ '-' :: (c.dd ++ sep :: (c.hd ++ ':' :: (c.mid ++ ':' :: c.sd))))

/-- Text of a timestamp core with its own separator. -/
def renderCore (c : TsCore) : List Char :=
  renderCoreSep c c.sep

/-- Final step of date-string interpretation: zone handling and validity
check.  `tz` is the local offset east of UTC in minutes. -/
def jsNewDateFin (tz : Int) (y mo d h mi s ms : Nat) (rest : List Char) : Option Int :=
  match rest with
  | [] =>
    if validDateTime y mo d h mi s ms then
      some (utcMsOfFields y mo d h mi s ms - tz * 60000)
    else none
  | [ 'Z' ] =>
    if validDateTime y mo d h mi s ms then some (utcMsOfFields y mo d h mi s ms)
    else none
  | _ => none

/-- Time-of-day part of date-string interpretation, after `T`. -/
def jsNewDateTime (tz : Int) (y mo d : Nat) (r : List Char) : Option Int :=
  match takeDigits 2 r with
  | none => none
  | some (hd, r1) =>
    match r1 with
    | ':' :: r2 =>
      match takeDigits 2 r2 with
      | none => none
      | some (mid, r3) =>
        match r3 with
        | ':' :: r4 =>
          match takeDigits 2 r4 with
          | none => none
          | some (sd, r5) =>
            match r5 with
            | '.' :: r6 =>
              let ds := r6.takeWhile Char.isDigit
              if ds.isEmpty then none
              else
                jsNewDateFin tz y mo d (digitsToNat hd) (digitsToNat mid)
                  (digitsToNat sd) (msOfFrac ds) (r6.dropWhile Char.isDigit)
            | _ =>
              jsNewDateFin tz y mo d (digitsToNat hd) (digitsToNat mid)
                (digitsToNat sd) 0 r5
        | _ => none
    | _ => none

/-- ECMAScript `new Date(string).getTime()` on conforming date and
date-time strings; `none` models `NaN` (an invalid date). -/
def jsNewDate (tz : Int) (l : List Char) : Option Int :=
  match takeDigits 4 l with
  | none => none
  | some (yd, r1) =>
    match r1 with
    | '-' :: r2 =>
      match takeDigits 2 r2 with
      | none => none
      | some (md, r3) =>
        match r3 with
        | '-' :: r4 =>
          match takeDigits 2 r4 with
          | none => none
          | some (dd, r5) =>
            match r5 with
            | [] =>
              if validDateTime (digitsToNat yd) (digitsToNat md) (digitsToNat dd) 0 0 0 0 then
                some (utcMsOfFields (digitsToNat yd) (digitsToNat md) (digitsToNat dd) 0 0 0 0)
              else none
            | 'T' :: r6 =>
              jsNewDateTime tz (digitsToNat yd) (digitsToNat md) (digitsToNat dd) r6
            | _ => none
        | _ => none
    | _ => none

/-- The string surgery of `parseLogLine` before `new Date`:
`timestampStr.replace(' UTC', 'Z').replace(' ', 'T')`. -/
def jsTransform (ts : List Char) : List Char :=
  jsReplaceFirst [ ' ' ] [ 'T' ] (jsReplaceFirst [ ' ', 'U', 'T', 'C' ] [ 'Z' ] ts)

/-- Tail of the regex after the timestamp capture: `\s+(.*)$`.  Consumes
a non-empty maximal whitespace run; the remainder is the message capture
and must contain no line break (`.` does not match `\n` and `$` anchors
at the end of the string). -/
def wsAndMsg (acc : List Char) (r : List Char) : Option (List Char × List Char) :=
  match r with
  | [] => none
  | c :: rest =>
    if jsWs c then
      let tail := rest.dropWhile jsWs
      if tail.any (fun ch => ch == '\n') then none else some (acc, tail)
    else none

/-- The optional zone suffix `(?:Z| UTC)?` followed by `\s+(.*)$`, with
the backtracking order of the alternation: `Z` first, then ` UTC`, then
the empty alternative. -/
def suffixWs (acc : List Char) (r : List Char) : Option (List Char × List Char) :=
  orOpt
    (match r with
     | 'Z' :: rr => wsAndMsg (acc ++ [ 'Z' ]) rr
     | _ => none)
    (orOpt
      (match r with
       | ' ' :: 'U' :: 'T' :: 'C' :: rr => wsAndMsg (acc ++ [ ' ', 'U', 'T', 'C' ]) rr
       | _ => none)
      (wsAndMsg acc r))

/-- The optional fraction `(?:\.\d+)?` followed by the suffix and tail,
with greedy matching and fallback to the empty alternative. -/
def fracSuffixWs (acc : List Char) (r : List Char) : Option (List Char × List Char) :=
  match r with
  | '.' :: rr =>
    if (rr.takeWhile Char.isDigit).isEmpty then suffixWs acc r
    else
      orOpt (suffixWs (acc ++ '.' :: rr.takeWhile Char.isDigit) (rr.dropWhile Char.isDigit))
        (suffixWs acc r)
  | _ => suffixWs acc r

/-- Model of `line.match(timestampRegex)` in `parseLogLine`: on success returns
the two captures, the timestamp substring and the message remainder. -/
def matchTimestampRegex (line : List Char) : Option (List Char × List Char) :=
  match scanCore line with
  | none => none
  | some (c, r) => fracSuffixWs (renderCoreSep c c.sep) r

/-- Result record of `parseLogLine`: `timestamp: Date | null` is an
optional epoch-millisecond instant. -/
structure ParsedLogLine where
  timestamp : Option Int
  message : List Char
deriving DecidableEq

/-- Function `parseLogLine` of `logs-webview.ts`: attempt the leading-timestamp
match; on match, interpret the (transformed) timestamp substring with
`new Date` (`none` models the `isNaN` fallback to `null`) and trim the
remainder; otherwise the whole line is the message. -/
def parseLogLine (tz : Int) (line : List Char) : ParsedLogLine :=
  match matchTimestampRegex line with
  | some (tsStr, message) =>
    { timestamp := jsNewDate tz (jsTransform tsStr), message := jsTrim message }
  | none => { timestamp := none, message := line }

/-! A small backtracking matcher for the classifier patterns.

`getLogType` tests the lowercased message against fixed regular
expressions.  Every repetition in those patterns ranges over a single
character class, so the engine below needs only character-class
repetition; it threads the character to the left of the current
position so that word boundaries (`\b`) and the `^` anchor can be
tested anywhere in the pattern. -/

/-- Abstract form of the classifier patterns: empty, word boundary, start and
end anchors, a character class, sequencing, ordered alternation, and
greedy character-class repetition (`+` and `*`). -/
inductive RE where
  | eps : RE
  | wb : RE
  | bos : RE
  | eos : RE
  | ch : (Char → Bool) → RE
  | seq : RE → RE → RE
  | alt : RE → RE → RE
  | rep1 : (Char → Bool) → RE
  | rep0 : (Char → Bool) → RE

/-- Whether the position between a left character (none = string edge)
and a right character is a `\b` word boundary. -/
def boundaryB (a b : Option Char) : Bool :=
  (match a with | none => false | some c => isWordChar c)
    != (match b with | none => false | some c => isWordChar c)

/-- All ways a greedy character-class repetition can consume an initial segment of
the input (longest first), with the new left-context character. -/
def repMatches (f : Char → Bool) : Option Char → List Char → List (Option Char × List Char)
  | _, [] => []
  | _, c :: rest =>
    if f c then repMatches f (some c) rest ++ [(some c, rest)] else []

/-- Concatenate the continuations of every pending match state. -/
def bindMatches (xs : List (Option Char × List Char))
    (g : Option Char → List Char → List (Option Char × List Char)) :
    List (Option Char × List Char) :=
  match xs with
  | [] => []
  | (p, s) :: rest => g p s ++ bindMatches rest g

/-- All match states (left context and remainder) reachable by matching
`r` at the head of `s`, with `p` the character just before `s`. -/
def reMatch : RE → Option Char → List Char → List (Option Char × List Char)
  | .eps, p, s => [(p, s)]
  | .wb, p, s => if boundaryB p s.head? then [(p, s)] else []
  | .bos, p, s => (match p with | none => [(p, s)] | some _ => [])
  | .eos, p, s => (match s with | [] => [(p, s)] | _ :: _ => [])
  | .ch _, _, [] => []
  | .ch f, _, c :: rest => if f c then [(some c, rest)] else []
  | .seq a b, p, s => bindMatches (reMatch a p s) (reMatch b)
  | .alt a b, p, s => reMatch a p s ++ reMatch b p s
  | .rep1 f, p, s => repMatches f p s
  | .rep0 f, p, s => repMatches f p s ++ [(p, s)]

/-- Whether `r` matches starting exactly at the head of `s`. -/
def reHere (r : RE) (p : Option Char) (s : List Char) : Bool :=
  !(reMatch r p s).isEmpty

/-- Scan every start position, threading the left-context character. -/
def reTestAux (r : RE) (p : Option Char) (s : List Char) : Bool :=
  reHere r p s ||
    (match s with
     | [] => false
     | c :: rest => reTestAux r (some c) rest)

/-- JavaScript `regex.test(s)`: does the pattern match at some
position. -/
def reTest (r : RE) (s : List Char) : Bool :=
  reTestAux r none s

/-- Literal character sequence as a pattern. -/
def reChars : List Char → RE
  | [] => .eps
  | c :: rest => .seq (.ch (fun x => x == c)) (reChars rest)

/-- Literal string as a pattern. -/
def reStr (s : String) : RE :=
  reChars s.data

/-- Optional group `(?:r)?` (the present alternative is preferred). -/
def reOpt (r : RE) : RE :=
  .alt r .eps

/-- Single literal character as a pattern. -/
def reChar (c : Char) : RE :=
  .ch (fun x => x == c)

/-- The class `.` (any character except a line terminator). -/
def notNl (c : Char) : Bool :=
  !(c == '\n')

/-- The class `[\w.]`. -/
def wordDot (c : Char) : Bool :=
  isWordChar c || c == '.'

/-! The error-group patterns of `getLogType`. -/

/-- Pattern `(?:^|\s)(?:error|err):?\s`. -/
def reErr1 : RE :=
  .seq (.alt .bos (.ch jsWs))
    (.seq (.alt (reStr "error") (reStr "err")) (.seq (reOpt (reChar ':')) (.ch jsWs)))

/-- Pattern `\b(?:exception|failed|failure)\b`. -/
def reErr2 : RE :=
  .seq .wb (.seq (.alt (reStr "exception") (.alt (reStr "failed") (reStr "failure"))) .wb)

/-- Pattern `(?:stack\s?trace):\s*$`. -/
def reErr3 : RE :=
  .seq (reStr "stack")
    (.seq (reOpt (.ch jsWs)) (.seq (reStr "trace") (.seq (reChar ':') (.seq (.rep0 jsWs) .eos))))

/-- Pattern `^\s*at\s+[\w.]+\s*\(?.+:\d+:\d+\)?`. -/
def reErr4 : RE :=
  .seq .bos (.seq (.rep0 jsWs) (.seq (reStr "at") (.seq (.rep1 jsWs) (.seq (.rep1 wordDot)
    (.seq (.rep0 jsWs) (.seq (reOpt (reChar '(')) (.seq (.rep1 notNl) (.seq (reChar ':')
      (.seq (.rep1 Char.isDigit) (.seq (reChar ':') (.seq (.rep1 Char.isDigit)
        (reOpt (reChar ')')))))))))))))

/-- Pattern `\b(?:uncaught|unhandled)\s+(?:exception|error)\b`. -/
def reErr5 : RE :=
  .seq .wb (.seq (.alt (reStr "uncaught") (reStr "unhandled"))
    (.seq (.rep1 jsWs) (.seq (.alt (reStr "exception") (reStr "error")) .wb)))

/-- Pattern `\[(?:error|err|fatal)\]`. -/
def reErr6 : RE :=
  .seq (reChar '[')
    (.seq (.alt (reStr "error") (.alt (reStr "err") (reStr "fatal"))) (reChar ']'))

/-- Pattern `\b(?:crash|critical|fatal)\b`. -/
def reErr7 : RE :=
  .seq .wb (.seq (.alt (reStr "crash") (.alt (reStr "critical") (reStr "fatal"))) .wb)

/-! The warning-group patterns. -/

/-- Pattern `(?:^|\s)(?:warning|warn):?\s`. -/
def reWarn1 : RE :=
  .seq (.alt .bos (.ch jsWs))
    (.seq (.alt (reStr "warning") (reStr "warn")) (.seq (reOpt (reChar ':')) (.ch jsWs)))

/-- Pattern `\[(?:warn(?:ing)?|attention)\]`. -/
def reWarn2 : RE :=
  .seq (reChar '[')
    (.seq (.alt (.seq (reStr "warn") (reOpt (reStr "ing"))) (reStr "attention")) (reChar ']'))

/-- Pattern `(?:deprecated|obsolete)`. -/
def reWarn3 : RE :=
  .alt (reStr "deprecated") (reStr "obsolete")

/-- Pattern `\b(?:caution|attention|notice):\s`. -/
def reWarn4 : RE :=
  .seq .wb (.seq (.alt (reStr "caution") (.alt (reStr "attention") (reStr "notice")))
    (.seq (reChar ':') (.ch jsWs)))

/-- Pattern `⚠|⚠️` (the second alternative adds the variation selector). -/
def reWarn5 : RE :=
  .alt (reChar '⚠') (.seq (reChar '⚠') (reChar '️'))

/-! The success-group patterns. -/

/-- Pattern
`(?:successfully|complete[d]?)\s+(?:initialized|started|completed|created|done|deployed)`. -/
def reSucc1 : RE :=
  .seq (.alt (reStr "successfully") (.seq (reStr "complete") (reOpt (reChar 'd'))))
    (.seq (.rep1 jsWs)
      (.alt (reStr "initialized") (.alt (reStr "started") (.alt (reStr "completed")
        (.alt (reStr "created") (.alt (reStr "done") (reStr "deployed")))))))

/-- Pattern `\[(?:success|ok|done)\]`. -/
def reSucc2 : RE :=
  .seq (reChar '[')
    (.seq (.alt (reStr "success") (.alt (reStr "ok") (reStr "done"))) (reChar ']'))

/-- Pattern `(?:listening|running)\s+(?:on|at)\s+(?:port\s+)?\d+`. -/
def reSucc3 : RE :=
  .seq (.alt (reStr "listening") (reStr "running"))
    (.seq (.rep1 jsWs) (.seq (.alt (reStr "on") (reStr "at"))
      (.seq (.rep1 jsWs) (.seq (reOpt (.seq (reStr "port") (.rep1 jsWs)))
        (.rep1 Char.isDigit)))))

/-- Pattern `(?:connected|established|ready)\s+(?:to|for|on)`. -/
def reSucc4 : RE :=
  .seq (.alt (reStr "connected") (.alt (reStr "established") (reStr "ready")))
    (.seq (.rep1 jsWs) (.alt (reStr "to") (.alt (reStr "for") (reStr "on"))))

/-- Pattern `✓|√|✅|\[ok\]|done!`. -/
def reSucc5 : RE :=
  .alt (reChar '✓') (.alt (reChar '√') (.alt (reChar '✅')
    (.alt (reStr "[ok]") (reStr "done!"))))

/-- Pattern `\b(?:success(?:ful)?|completed|ready)\b`. -/
def reSucc6 : RE :=
  .seq .wb (.seq (.alt (.seq (reStr "success") (reOpt (reStr "ful")))
    (.alt (reStr "completed") (reStr "ready"))) .wb)

/-! The info-group patterns. -/

/-- Pattern `(?:^|\s)(?:info|inf|information):?\s`. -/
def reInfo1 : RE :=
  .seq (.alt .bos (.ch jsWs))
    (.seq (.alt (reStr "info") (.alt (reStr "inf") (reStr "information")))
      (.seq (reOpt (reChar ':')) (.ch jsWs)))

/-- Pattern `\[(?:info|information)\]`. -/
def reInfo2 : RE :=
  .seq (reChar '[') (.seq (.alt (reStr "info") (reStr "information")) (reChar ']'))

/-- Pattern `\b(?:status|state|current|progress)\b:?\s`. -/
def reInfo3 : RE :=
  .seq .wb (.seq (.alt (reStr "status") (.alt (reStr "state")
    (.alt (reStr "current") (reStr "progress"))))
    (.seq .wb (.seq (reOpt (reChar ':')) (.ch jsWs))))

/-- Pattern `\b(?:processing|executing|performing)\b`. -/
def reInfo4 : RE :=
  .seq .wb (.seq (.alt (reStr "processing") (.alt (reStr "executing") (reStr "performing"))) .wb)

/-- Pattern `\b(?:cloning|building|installing|downloading|fetching)\b`. -/
def reInfo5 : RE :=
  .seq .wb (.seq (.alt (reStr "cloning") (.alt (reStr "building")
    (.alt (reStr "installing") (.alt (reStr "downloading") (reStr "fetching"))))) .wb)

/-- Disjunction of the error-group tests, in source order. -/
def errorGroup (m : List Char) : Bool :=
  reTest reErr1 m || reTest reErr2 m || reTest reErr3 m || reTest reErr4 m ||
  reTest reErr5 m || reTest reErr6 m || reTest reErr7 m

/-- Disjunction of the warning-group tests, in source order. -/
def warningGroup (m : List Char) : Bool :=
  reTest reWarn1 m || reTest reWarn2 m || reTest reWarn3 m || reTest reWarn4 m ||
  reTest reWarn5 m

/-- Disjunction of the success-group tests, in source order. -/
def successGroup (m : List Char) : Bool :=
  reTest reSucc1 m || reTest reSucc2 m || reTest reSucc3 m || reTest reSucc4 m ||
  reTest reSucc5 m || reTest reSucc6 m

/-- Disjunction of the info-group tests, in source order. -/
def infoGroup (m : List Char) : Bool :=
  reTest reInfo1 m || reTest reInfo2 m || reTest reInfo3 m || reTest reInfo4 m ||
  reTest reInfo5 m

/-- The five severity categories. -/
inductive LogType where
  | error : LogType
  | warning : LogType
  | success : LogType
  | info : LogType
  | debug : LogType
deriving DecidableEq

/-- Per-severity visual metadata, as in the `LogStyle` interface. -/
structure LogStyle where
  type : LogType
  bgClass : String
  borderColor : String
  badgeBg : String
  badgeText : String
deriving DecidableEq

/-- The fixed `LOG_STYLES` lookup table. -/
def LOG_STYLES : LogType → LogStyle
  | .error =>
    { type := .error, bgClass := "log-error", borderColor := "#f44336",
      badgeBg := "rgba(244, 67, 54, 0.4)", badgeText := "#ff6b6b" }
  | .warning =>
    { type := .warning, bgClass := "log-warning", borderColor := "#ff9800",
      badgeBg := "rgba(255, 152, 0, 0.4)", badgeText := "#ffb74d" }
  | .success =>
    { type := .success, bgClass := "log-success", borderColor := "#4caf50",
      badgeBg := "rgba(76, 175, 80, 0.4)", badgeText := "#81c784" }
  | .info =>
    { type := .info, bgClass := "log-info", borderColor := "#2196f3",
      badgeBg := "rgba(33, 150, 243, 0.4)", badgeText := "#64b5f6" }
  | .debug =>
    { type := .debug, bgClass := "log-debug", borderColor := "#9e9e9e",
      badgeBg := "rgba(158, 158, 158, 0.3)", badgeText := "#bdbdbd" }

/-- Function `getLogType` of `logs-webview.ts`: lowercase the message, then test
the rule groups error, warning, success, info in that order; the first
group with a matching pattern wins, `debug` is the default.
`Char.toLower` covers the ASCII part of `String.prototype.toLowerCase`. -/
def getLogType (message : List Char) : LogStyle :=
  let lowerMessage := message.map Char.toLower
  if errorGroup lowerMessage then LOG_STYLES .error
  else if warningGroup lowerMessage then LOG_STYLES .warning
  else if successGroup lowerMessage then LOG_STYLES .success
  else if infoGroup lowerMessage then LOG_STYLES .info
  else LOG_STYLES .debug

/-! Renderer. -/

/-- Function `escapeHtml` of `logs-webview.ts`: the five sequential global
replacements, ampersand first. -/
def escapeHtml (text : List Char) : List Char :=
  replaceAllChar (Char.ofNat 39) "&#039;".data
    (replaceAllChar '"' "&quot;".data
      (replaceAllChar '>' "&gt;".data
        (replaceAllChar '<' "&lt;".data
          (replaceAllChar '&' "&amp;".data text))))

/-- Modelled from the spec: the renderer converts embedded terminal
color sequences via the external `ansi-to-html` package (configured as
`ansiConverter` in the source; the package itself is not part of this
repository).  On text free of escape sequences the conversion returns
the input unchanged, which is the only behaviour any claim depends on;
the color translation itself is not modelled. -/
def ansiToHtml (t : List Char) : List Char := t

/-- Year handling of the recursion in `formatTimestamp`: find the year
containing a given day count from 0000-01-01, returning the year and
the day of year. -/
def yearLen (y : Nat) : Nat :=
  if isLeapYear y then 366 else 365

/-- Locate the year of a day number counted from 0000-01-01. -/
def yearFromDays (y days : Nat) : Nat × Nat :=
  if _h : days < yearLen y then (y, days)
  else yearFromDays (y + 1) (days - yearLen y)
termination_by days
decreasing_by
  have h1 : 0 < yearLen y := by unfold yearLen; split <;> omega
  omega

/-- Locate the month (1-based) and day (1-based) of a day of year. -/
def monthFromDoyAux : Nat → List Nat → Nat → Nat × Nat
  | m, [], doy => (m, doy + 1)
  | m, len :: rest, doy =>
    if doy < len then (m, doy + 1) else monthFromDoyAux (m + 1) rest (doy - len)

/-- Month and day of a day of year. -/
def monthFromDoy (leap : Bool) (doy : Nat) : Nat × Nat :=
  monthFromDoyAux 1 (monthLengths leap) doy

/-- Two-digit zero padding, as the `pad` helper of `formatTimestamp`. -/
def pad2 (n : Nat) : List Char :=
  if n < 10 then '0' :: (Nat.repr n).data else (Nat.repr n).data

/-- Function `formatTimestamp` of `logs-webview.ts`: formats an instant as
`YYYY-MM-DD HH:MM:SS` using the local `get*` accessors, so in local
display time (`tz` minutes east of UTC).  Day counts are clamped at
0000-01-01, which is unreachable from any parsed input. -/
def formatTimestamp (tz : Int) (t : Int) : List Char :=
  let localMs := t + tz * 60000
  let dayN := (Int.ediv localMs 86400000 + (epochDayOffset : Int)).toNat
  let yd := yearFromDays 0 dayN
  let md := monthFromDoy (isLeapYear yd.1) yd.2
  let msOfDay := (Int.emod localMs 86400000).toNat
  (Nat.repr yd.1).data ++ '-' :: (pad2 md.1 ++ '-' :: (pad2 md.2 ++ ' ' ::
    (pad2 (msOfDay / 3600000) ++ ':' :: (pad2 (msOfDay / 60000 % 60) ++ ':' ::
      pad2 (msOfDay / 1000 % 60)))))

/-- A rendered line of the log surface: either the fixed blank row, or a
record carrying the severity style, the timestamp template fragment and
the message markup (the HTML template slots of the source). -/
inductive RenderedLine where
  | emptyRow : RenderedLine
  | record : LogStyle → List Char → List Char → RenderedLine
deriving DecidableEq

/-- Timestamp template fragment of a rendered record (empty for the
blank row and whenever the element is omitted). -/
def tsHtmlOf : RenderedLine → List Char
  | .emptyRow => []
  | .record _ ts _ => ts

/-- Opening markup of the timestamp span. -/
def tsSpanOpen : List Char := "<span class=\"log-timestamp\">".data

/-- Closing markup of the timestamp span. -/
def tsSpanClose : List Char := "</span>".data

/-- The empty timestamp span rendered when display is on but the line
has no parsed timestamp. -/
def tsSpanEmpty : List Char := "<span class=\"log-timestamp\"></span>".data

/-- The per-line lambda of `LogsWebview.updateContent`: blank lines give
the fixed empty row; other lines are parsed, classified and rendered.
With timestamp display on, a parsed timestamp renders a filled span and
a missing one an empty span; with display off the fragment is the empty
string. -/
def renderLine (flag : Bool) (tz : Int) (line : List Char) : RenderedLine :=
  if jsTrim line = [] then .emptyRow
  else
    let parsed := parseLogLine tz line
    let style := getLogType parsed.message
    let messageHtml := ansiToHtml (escapeHtml parsed.message)
    let tsHtml : List Char :=
      if flag then
        match parsed.timestamp with
        | some t => tsSpanOpen ++ formatTimestamp tz t ++ tsSpanClose
        | none => tsSpanEmpty
      else []
    .record style tsHtml messageHtml

/-- Method `LogsWebview.formatLogLine` (the runtime-logs per-line renderer): as
`renderLine`, but the timestamp fragment is rendered only when display
is on and the line has a parsed timestamp (`this.timestamp &&
parsed.timestamp`). -/
def formatLogLine (flag : Bool) (tz : Int) (line : List Char) : RenderedLine :=
  if jsTrim line = [] then .emptyRow
  else
    let parsed := parseLogLine tz line
    let style := getLogType parsed.message
    let messageHtml := ansiToHtml (escapeHtml parsed.message)
    let tsHtml : List Char :=
      match flag, parsed.timestamp with
      | true, some t => tsSpanOpen ++ formatTimestamp tz t ++ tsSpanClose
      | _, _ => []
    .record style tsHtml messageHtml

/-- Method `LogsWebview.updateContent`: split the content on line breaks and
render every piece (the surrounding page template is not modelled). -/
def updateContent (flag : Bool) (tz : Int) (content : List Char) : List RenderedLine :=
  (splitLines content).map (renderLine flag tz)

/-- Method `LogsWebview.updateRuntimeContent`: split and render with
`formatLogLine`; the toolbar (containers and tail selectors) is part of
the page template and is not modelled. -/
def updateRuntimeContent (flag : Bool) (tz : Int) (content : List Char) : List RenderedLine :=
  (splitLines content).map (formatLogLine flag tz)

/-! Stream session (the WebSocket handlers of `connectWebSocket`).

The session state is the `logBuffer` field plus the rendered lines last
pushed to the panel.  The handlers below model the non-runtime branch
(`updateContent`); the runtime branch is identical up to
`updateRuntimeContent`.  The panel is assumed present, as in every
connected session. -/

/-- Mutable state of one log session. -/
structure SessionState where
  logBuffer : List Char
  displayed : List RenderedLine
deriving DecidableEq

/-- The `open` handler: clears the buffer and shows the placeholder. -/
def wsOnOpen (flag : Bool) (tz : Int) (_st : SessionState) : SessionState :=
  ⟨[], updateContent flag tz "Connected. Waiting for logs...".data⟩

/-- The `message` handler: appends the chunk to the buffer and
re-renders the whole buffer. -/
def wsOnMessage (flag : Bool) (tz : Int) (st : SessionState) (data : List Char) : SessionState :=
  ⟨st.logBuffer ++ data, updateContent flag tz (st.logBuffer ++ data)⟩

/-- Text prefix of the synthetic error line. -/
def connectionErrorText : List Char := "Connection error: ".data

/-- The `error` handler: renders the synthetic error line, a blank line
and the existing buffer; the buffer itself is not modified. -/
def wsOnError (flag : Bool) (tz : Int) (st : SessionState) (errMsg : List Char) : SessionState :=
  ⟨st.logBuffer,
   updateContent flag tz ((connectionErrorText ++ errMsg) ++ '\n' :: '\n' :: st.logBuffer)⟩

/-- The terminal marker line appended on close. -/
def streamEndMarker : List Char := "--- Log stream ended ---".data

/-- The `close` handler: with a non-empty buffer (JavaScript truthiness
of the string), re-renders the buffer followed by a blank line and the
terminal marker; with an empty buffer it does nothing. -/
def wsOnClose (flag : Bool) (tz : Int) (st : SessionState) : SessionState :=
  if st.logBuffer = [] then st
  else
    ⟨st.logBuffer,
     updateContent flag tz (st.logBuffer ++ '\n' :: '\n' :: streamEndMarker)⟩

/-! Runtime-logs source controller. -/

/-- A container as listed by the inventory service (`Container` of
`types/dokploy.ts`, the fields used by the webview). -/
structure Container where
  containerId : List Char
  name : List Char
  state : List Char
deriving DecidableEq

/-- A JavaScript number as delivered in a webview message: `parseInt`
may produce `NaN`. -/
inductive JsNum where
  | nan : JsNum
  | num : Int → JsNum
deriving DecidableEq

/-- JavaScript truthiness of a number: `NaN` and `0` are falsy. -/
def jsTruthyNum : JsNum → Bool
  | .nan => false
  | .num n => !(n == 0)

/-- JavaScript truthiness of an optional number field (`undefined` is
falsy). -/
def jsTruthyOptNum : Option JsNum → Bool
  | none => false
  | some v => jsTruthyNum v

/-- Interface `RuntimeLogsConfig` of the source (the `app` and `client` handles
are external collaborators and are not modelled). -/
structure RuntimeLogsConfig where
  containers : List Container
  selectedContainerId : List Char
  tail : JsNum
deriving DecidableEq

/-- State owned by the `LogsWebview` instance for runtime logs. -/
structure RuntimeState where
  runtimeConfig : Option RuntimeLogsConfig
  session : SessionState
deriving DecidableEq

/-- The three webview commands. -/
inductive WebviewCommand where
  | changeContainer : WebviewCommand
  | changeTail : WebviewCommand
  | refresh : WebviewCommand
deriving DecidableEq

/-- A `WebviewMessage`: the command with its optional payload fields. -/
structure WebviewMessage where
  command : WebviewCommand
  containerId : Option (List Char)
  tail : Option JsNum
deriving DecidableEq

/-- Placeholder shown while a new stream connects. -/
def connectingText : List Char := "Connecting to log stream...".data

/-- Method `LogsWebview.connectToRuntimeLogs`: with a config present, clears
the buffer, shows the connecting placeholder and (re)opens the
transport (the WebSocket itself is an external resource). -/
def connectToRuntimeLogs (flag : Bool) (tz : Int) (st : RuntimeState) : RuntimeState :=
  match st.runtimeConfig with
  | none => st
  | some _ => { st with session := ⟨[], updateRuntimeContent flag tz connectingText⟩ }

/-- One dispatch of the `LogsWebview.setupMessageHandler` callback.
`fresh` is the container list returned by the inventory service for the
`refresh` command.  The boolean result records whether the current
session was torn down and replaced (a call to `connectToRuntimeLogs`).
On `refresh` with no containers the panel shows the empty state page,
which replaces only the page markup and is outside the rendered-record
model; the session fields are untouched. -/
def setupMessageHandlerStep (flag : Bool) (tz : Int) (st : RuntimeState)
    (msg : WebviewMessage) (fresh : List Container) : RuntimeState × Bool :=
  match st.runtimeConfig with
  | none => (st, false)
  | some cfg =>
    match msg.command with
    | .changeContainer =>
      match msg.containerId with
      | some cid =>
        if cid.isEmpty then (st, false)
        else
          (connectToRuntimeLogs flag tz
            { st with runtimeConfig := some { cfg with selectedContainerId := cid } }, true)
      | none => (st, false)
    | .changeTail =>
      match msg.tail with
      | some t =>
        if jsTruthyNum t then
          (connectToRuntimeLogs flag tz
            { st with runtimeConfig := some { cfg with tail := t } }, true)
        else (st, false)
      | none => (st, false)
    | .refresh =>
      match fresh with
      | [] => (st, false)
      | c0 :: _ =>
        let cfg2 : RuntimeLogsConfig :=
          { cfg with containers := fresh, selectedContainerId := c0.containerId }
        (connectToRuntimeLogs flag tz { st with runtimeConfig := some cfg2 }, true)

/-- The `timestamp = false` default of the `LogsWebview` constructor:
the stored flag is the argument when given, else `false`. -/
def logsWebviewTimestampField (timestampArg : Option Bool) : Bool :=
  timestampArg.getD false

/-- The timestamp flag of the instance built in `extension.ts`
(`new LogsWebview(context.extensionUri)`, no timestamp argument). -/
def extensionLogsWebviewTimestamp : Bool :=
  logsWebviewTimestampField none

theorem splitLines_ne_nil (l : List Char) : splitLines l ≠ [] := by
  induction l with
  | nil => simp [splitLines]
  | cons c rest ih =>
    simp only [splitLines]
    split
    · simp
    · cases h : splitLines rest with
      | nil => simp
      | cons x xs => simp

theorem joinLast_ne_nil (S ys : List (List Char)) (hy : ys ≠ []) : joinLast S ys ≠ [] := by
  induction S with
  | nil => simpa [joinLast]
  | cons x xs ih =>
    cases xs with
    | nil =>
      cases ys with
      | nil => exact absurd rfl hy
      | cons y yt => simp [joinLast, consHead]
    | cons x2 xt => simp [joinLast]

theorem consHead_nil (ys : List (List Char)) (hy : ys ≠ []) : consHead [] ys = ys := by
  cases ys with
  | nil => exact absurd rfl hy
  | cons y yt => simp [consHead]

theorem consHead_consHead (x y : List Char) (ys : List (List Char)) :
    consHead x (consHead y ys) = consHead (x ++ y) ys := by
  cases ys with
  | nil => simp [consHead]
  | cons z zt => simp [consHead]

theorem joinLast_cons (x : List Char) (S ys : List (List Char)) (h : S ≠ []) :
    joinLast (x :: S) ys = x :: joinLast S ys := by
  cases S with
  | nil => exact absurd rfl h
  | cons s ss => rfl

theorem joinLast_consHead (x : List Char) (S ys : List (List Char)) (h : S ≠ []) :
    joinLast (consHead x S) ys = consHead x (joinLast S ys) := by
  cases S with
  | nil => exact absurd rfl h
  | cons s ss =>
    cases ss with
    | nil =>
      cases ys with
      | nil => simp [consHead, joinLast]
      | cons y yt => simp [consHead, joinLast]
    | cons s2 st => simp [consHead, joinLast]

theorem splitLines_cons (c : Char) (L : List Char) (hc : c ≠ '\n') :
    splitLines (c :: L) = consHead [c] (splitLines L) := by
  simp only [splitLines, if_neg hc]
  cases h : splitLines L with
  | nil => simp [consHead]
  | cons l ls => simp [consHead]

theorem splitLines_append (a b : List Char) :
    splitLines (a ++ b) = joinLast (splitLines a) (splitLines b) := by
  induction a with
  | nil =>
    simp only [List.nil_append, splitLines]
    rw [joinLast, consHead_nil _ (splitLines_ne_nil b)]
  | cons c a ih =>
    by_cases hc : c = '\n'
    · subst hc
      rw [List.cons_append,
        show splitLines ('\n' :: (a ++ b)) = [] :: splitLines (a ++ b) from by
          simp [splitLines],
        show splitLines ('\n' :: a) = [] :: splitLines a from by simp [splitLines],
        ih, joinLast_cons _ _ _ (splitLines_ne_nil a)]
    · rw [List.cons_append, splitLines_cons c (a ++ b) hc, splitLines_cons c a hc, ih,
        joinLast_consHead _ _ _ (splitLines_ne_nil a)]

theorem splitLines_no_nl (a : List Char) (h : '\n' ∉ a) : splitLines a = [a] := by
  induction a with
  | nil => simp [splitLines]
  | cons c rest ih =>
    have hc : c ≠ '\n' := fun hh => h (hh ▸ List.mem_cons_self c rest)
    have hr : '\n' ∉ rest := fun hh => h (List.mem_cons_of_mem c hh)
    rw [splitLines_cons c rest hc, ih hr, consHead]
    simp

theorem splitLines_append_nl (a r : List Char) (h : '\n' ∉ a) :
    splitLines (a ++ '\n' :: r) = a :: splitLines r := by
  rw [splitLines_append, splitLines_no_nl a h,
    show splitLines ('\n' :: r) = [] :: splitLines r from by simp [splitLines],
    joinLast, consHead]
  simp

theorem joinLast_eq_dropLast (S ys : List (List Char)) (h : S ≠ []) :
    joinLast S ys = S.dropLast ++ consHead (S.getLastD []) ys := by
  induction S with
  | nil => exact absurd rfl h
  | cons x xs ih =>
    cases xs with
    | nil => simp [joinLast]
    | cons x2 xt =>
      rw [joinLast_cons x (x2 :: xt) ys (List.cons_ne_nil x2 xt), ih (List.cons_ne_nil x2 xt)]
      simp [List.getLastD_cons]

theorem lastOfAppend {α : Type} (A B : List α) (h : B ≠ []) :
    (A ++ B).getLast? = B.getLast? := by
  induction A with
  | nil => rfl
  | cons x xs ih =>
    cases hx : xs ++ B with
    | nil => exact absurd (List.append_eq_nil.mp hx).2 h
    | cons y yt => rw [List.cons_append, hx, List.getLast?_cons_cons, ← hx, ih]

theorem getLastD_irrel {α : Type} (l : List α) (h : l ≠ []) (a b : α) :
    l.getLastD a = l.getLastD b := by
  cases l with
  | nil => exact absurd rfl h
  | cons x xs => rw [List.getLastD_cons, List.getLastD_cons]

theorem getLastMap {α β : Type} (f : α → β) (l : List α) (h : l ≠ []) (d : α) :
    (l.map f).getLast? = some (f (l.getLastD d)) := by
  induction l with
  | nil => exact absurd rfl h
  | cons x xs ih =>
    cases xs with
    | nil => simp [List.getLastD]
    | cons y yt =>
      rw [List.map_cons, List.map_cons, List.getLast?_cons_cons, ← List.map_cons,
        ih (List.cons_ne_nil y yt)]
      have h2 : (x :: y :: yt).getLastD d = (y :: yt).getLastD x := by
        rw [List.getLastD_cons]
      rw [h2, getLastD_irrel (y :: yt) (List.cons_ne_nil y yt) d x]

theorem dropLastMap {α β : Type} (f : α → β) (l : List α) :
    (l.map f).dropLast = l.dropLast.map f := by
  induction l with
  | nil => rfl
  | cons x xs ih =>
    cases xs with
    | nil => rfl
    | cons y yt => simp only [List.map_cons, List.dropLast_cons₂, ← ih, List.map_cons]

/-! Claim theorems. -/

/-- C9.  For chunks delivered in order to a connected session, processing
`c1` then `c2` leaves the session (buffer and displayed output) in
exactly the state reached by processing the single concatenated chunk
`c1 ++ c2`: a mid-line split across chunk boundaries is never observably
different from receiving the complete line in one chunk. -/
theorem wsOnMessage_chunk_assoc (flag : Bool) (tz : Int) (st : SessionState)
    (c1 c2 : List Char) :
    wsOnMessage flag tz (wsOnMessage flag tz st c1) c2 = wsOnMessage flag tz st (c1 ++ c2) := by
  simp [wsOnMessage, List.append_assoc]

/-- C5.  On a transport error the session renders the synthetic line
`Connection error: <reason>` ahead of the rendering of whatever was
already buffered (with a blank separator row), and the log buffer
itself is preserved unchanged. -/
theorem wsOnError_preserves_buffer (flag : Bool) (tz : Int) (st : SessionState)
    (errMsg : List Char) (h : '\n' ∉ errMsg) :
    (wsOnError flag tz st errMsg).logBuffer = st.logBuffer ∧
    (wsOnError flag tz st errMsg).displayed =
      renderLine flag tz (connectionErrorText ++ errMsg) :: renderLine flag tz [] ::
        updateContent flag tz st.logBuffer := by
  constructor
  · rfl
  · show updateContent flag tz ((connectionErrorText ++ errMsg) ++ '\n' :: '\n' :: st.logBuffer) = _
    have hnl : '\n' ∉ connectionErrorText ++ errMsg := by
      intro hm
      rcases List.mem_append.mp hm with h1 | h2
      · exact absurd h1 (by decide)
      · exact h h2
    rw [updateContent, splitLines_append_nl _ _ hnl,
      show splitLines ('\n' :: st.logBuffer) = [] :: splitLines st.logBuffer from by
        simp [splitLines]]
    simp [updateContent]

/-- Witness for C5 at a concrete state and reason. -/
theorem wsOnError_preserves_buffer_witness :
    (wsOnError false 0 ⟨"hi".data, []⟩ "refused".data).logBuffer = "hi".data ∧
    (wsOnError false 0 ⟨"hi".data, []⟩ "refused".data).displayed =
      renderLine false 0 (connectionErrorText ++ "refused".data) :: renderLine false 0 [] ::
        updateContent false 0 "hi".data :=
  wsOnError_preserves_buffer false 0 ⟨"hi".data, []⟩ "refused".data (by decide)

/-- C6.  On normal transport close with a non-empty buffer, the terminal
marker `--- Log stream ended ---` is rendered as the last entry of the
final displayed output and the buffer is kept; with an empty buffer the
handler changes nothing. -/
theorem wsOnClose_end_marker (flag : Bool) (tz : Int) (st : SessionState) :
    (st.logBuffer ≠ [] →
      (wsOnClose flag tz st).logBuffer = st.logBuffer ∧
      (wsOnClose flag tz st).displayed.getLast? =
        some (renderLine flag tz streamEndMarker)) ∧
    (st.logBuffer = [] → wsOnClose flag tz st = st) := by
  constructor
  · intro hne
    rw [wsOnClose, if_neg hne]
    refine ⟨rfl, ?_⟩
    show (updateContent flag tz (st.logBuffer ++ '\n' :: '\n' :: streamEndMarker)).getLast? = _
    rw [updateContent, splitLines_append,
      show splitLines ('\n' :: '\n' :: streamEndMarker) = [] :: [] :: splitLines streamEndMarker
        from by simp [splitLines],
      splitLines_no_nl streamEndMarker (by decide),
      joinLast_eq_dropLast _ _ (splitLines_ne_nil st.logBuffer), consHead,
      List.map_append, lastOfAppend _ _ (by simp)]
    simp
  · intro he
    rw [wsOnClose, if_pos he]

/-- Witness for C6 at a concrete non-empty and a concrete empty state. -/
theorem wsOnClose_end_marker_witness :
    (wsOnClose false 0 ⟨"x".data, []⟩).displayed.getLast? =
      some (renderLine false 0 streamEndMarker) ∧
    wsOnClose false 0 ⟨[], []⟩ = ⟨[], []⟩ :=
  ⟨((wsOnClose_end_marker false 0 ⟨"x".data, []⟩).1 (by decide)).2,
   (wsOnClose_end_marker false 0 ⟨[], []⟩).2 rfl⟩

/-- Counterexample to C1 as stated: a chunk whose content does not end in
a line break has its trailing fragment rendered immediately (here the
fragment `ab` of the first chunk), and the later chunk `c` alters that
previously rendered line to `abc`, so the earlier rendered sequence is
not preserved. -/
theorem trailing_fragment_rendered :
    (wsOnMessage false 0 ⟨[], []⟩ "ab".data).displayed
      = [RenderedLine.record (LOG_STYLES LogType.debug) [] "ab".data] ∧
    (wsOnMessage false 0 (wsOnMessage false 0 ⟨[], []⟩ "ab".data) "c".data).displayed
      = [RenderedLine.record (LOG_STYLES LogType.debug) [] "abc".data] ∧
    RenderedLine.record (LOG_STYLES LogType.debug) [] "ab".data ≠
      RenderedLine.record (LOG_STYLES LogType.debug) [] "abc".data := by
  refine ⟨?_, ?_, ?_⟩ <;> decide

/-- C1 (amended).  The trailing incomplete fragment after the last line
break IS rendered immediately as the last displayed line; for any two
chunks received in order, the rendered sequence after the second chunk
preserves, in order, all lines of the first sequence except possibly
that last fragment line, which a later chunk may alter. -/
theorem wsOnMessage_stable_except_last (flag : Bool) (tz : Int) (st : SessionState)
    (c1 c2 : List Char) :
    (∃ suffix, ((wsOnMessage flag tz st c1).displayed).dropLast ++ suffix
        = (wsOnMessage flag tz (wsOnMessage flag tz st c1) c2).displayed) ∧
    ((wsOnMessage flag tz st c1).displayed).getLast?
        = some (renderLine flag tz ((splitLines (st.logBuffer ++ c1)).getLastD [])) := by
  constructor
  · refine ⟨(consHead ((splitLines (st.logBuffer ++ c1)).getLastD [])
      (splitLines c2)).map (renderLine flag tz), ?_⟩
    show (updateContent flag tz (st.logBuffer ++ c1)).dropLast ++ _
        = updateContent flag tz ((st.logBuffer ++ c1) ++ c2)
    rw [updateContent, updateContent, splitLines_append (st.logBuffer ++ c1) c2,
      joinLast_eq_dropLast _ _ (splitLines_ne_nil (st.logBuffer ++ c1)),
      List.map_append, dropLastMap]
  · exact getLastMap _ _ (splitLines_ne_nil (st.logBuffer ++ c1)) []

/-- C10.  The extension constructs its `LogsWebview` with no timestamp
argument, so the constructor default `false` applies and every rendered
line omits the timestamp element entirely, whether or not the line
carried a parseable timestamp. -/
theorem extension_timestamp_disabled :
    extensionLogsWebviewTimestamp = false ∧
    ∀ (tz : Int) (line : List Char),
      tsHtmlOf (renderLine extensionLogsWebviewTimestamp tz line) = [] := by
  refine ⟨rfl, ?_⟩
  intro tz line
  show tsHtmlOf (renderLine false tz line) = []
  rw [renderLine]
  split
  · rfl
  · rfl

/-- C7.  Whenever a webview intent (container switch, tail change or
refresh) replaces the session, the new session starts with an empty log
buffer and its rendering is exactly the connecting placeholder: no line
received under the prior source or tail depth appears. -/
theorem reconnect_clears_buffer (flag : Bool) (tz : Int) (st : RuntimeState)
    (msg : WebviewMessage) (fresh : List Container)
    (h : (setupMessageHandlerStep flag tz st msg fresh).2 = true) :
    (setupMessageHandlerStep flag tz st msg fresh).1.session.logBuffer = [] ∧
    (setupMessageHandlerStep flag tz st msg fresh).1.session.displayed
      = updateRuntimeContent flag tz connectingText := by
  rcases st with ⟨cfgOpt, sess⟩
  cases cfgOpt with
  | none => exact absurd h (by simp [setupMessageHandlerStep])
  | some cfg =>
    cases hcmd : msg.command with
    | changeContainer =>
      cases hid : msg.containerId with
      | none => exact absurd h (by simp [setupMessageHandlerStep, hcmd, hid])
      | some cid =>
        by_cases hcid : cid.isEmpty
        · exact absurd h (by simp [setupMessageHandlerStep, hcmd, hid, hcid])
        · simp [setupMessageHandlerStep, hcmd, hid, hcid, connectToRuntimeLogs]
    | changeTail =>
      cases ht : msg.tail with
      | none => exact absurd h (by simp [setupMessageHandlerStep, hcmd, ht])
      | some t =>
        by_cases htt : jsTruthyNum t
        · simp [setupMessageHandlerStep, hcmd, ht, htt, connectToRuntimeLogs]
        · exact absurd h (by simp [setupMessageHandlerStep, hcmd, ht, htt])
    | refresh =>
      cases fresh with
      | nil => exact absurd h (by simp [setupMessageHandlerStep, hcmd])
      | cons c0 cs => simp [setupMessageHandlerStep, hcmd, connectToRuntimeLogs]

/-- Witness for C7: a container switch on a live session. -/
theorem reconnect_clears_buffer_witness :
    (setupMessageHandlerStep false 0
      ⟨some ⟨[⟨"c1".data, "n".data, "running".data⟩], "c1".data, JsNum.num 100⟩,
        ⟨"old line".data, []⟩⟩
      ⟨WebviewCommand.changeContainer, some "c2".data, none⟩ []).1.session.logBuffer = [] ∧
    (setupMessageHandlerStep false 0
      ⟨some ⟨[⟨"c1".data, "n".data, "running".data⟩], "c1".data, JsNum.num 100⟩,
        ⟨"old line".data, []⟩⟩
      ⟨WebviewCommand.changeContainer, some "c2".data, none⟩ []).1.session.displayed
      = updateRuntimeContent false 0 connectingText :=
  reconnect_clears_buffer false 0 _ _ _ (by decide)

/-- C8.  A `changeTail` intent whose depth value is invalid (absent,
`NaN` from a failed parse, or zero, all falsy in the source guard) is
rejected before any session teardown: the state, including the current
config and live session, is returned unchanged and no reconnect
happens. -/
theorem changeTail_invalid_rejected (flag : Bool) (tz : Int) (st : RuntimeState)
    (msg : WebviewMessage) (fresh : List Container)
    (hcmd : msg.command = WebviewCommand.changeTail)
    (hbad : jsTruthyOptNum msg.tail = false) :
    setupMessageHandlerStep flag tz st msg fresh = (st, false) := by
  rcases st with ⟨cfgOpt, sess⟩
  cases cfgOpt with
  | none => simp [setupMessageHandlerStep]
  | some cfg =>
    cases ht : msg.tail with
    | none => simp [setupMessageHandlerStep, hcmd, ht]
    | some t =>
      have : jsTruthyNum t = false := by rw [ht] at hbad; exact hbad
      simp [setupMessageHandlerStep, hcmd, ht, this]

/-- Witness for C8: a `NaN` depth on a live session. -/
theorem changeTail_invalid_rejected_witness :
    setupMessageHandlerStep false 0
      ⟨some ⟨[⟨"c1".data, "n".data, "running".data⟩], "c1".data, JsNum.num 100⟩,
        ⟨"buf".data, []⟩⟩
      ⟨WebviewCommand.changeTail, none, some JsNum.nan⟩ []
    = (⟨some ⟨[⟨"c1".data, "n".data, "running".data⟩], "c1".data, JsNum.num 100⟩,
        ⟨"buf".data, []⟩⟩, false) :=
  changeTail_invalid_rejected false 0 _ _ [] rfl rfl

/-- C4.  Classification tests the error group first, so any message it
matches classifies as error no matter what later groups would match;
in particular the example `Build failed: deployment was not completed
successfully` carries a success marker yet classifies as error. -/
theorem getLogType_error_precedence :
    (∀ m : List Char, errorGroup (m.map Char.toLower) = true →
        getLogType m = LOG_STYLES LogType.error) ∧
    getLogType "Build failed: deployment was not completed successfully".data
      = LOG_STYLES LogType.error ∧
    successGroup ("Build failed: deployment was not completed successfully".data.map
        Char.toLower) = true := by
  refine ⟨?_, by decide, by decide⟩
  intro m h
  simp [getLogType, h]

/-- Witness for C4: a concrete error-marked message. -/
theorem getLogType_error_precedence_witness :
    errorGroup ("ERROR: connection refused".data.map Char.toLower) = true ∧
    getLogType "ERROR: connection refused".data = LOG_STYLES LogType.error :=
  ⟨by decide, getLogType_error_precedence.1 "ERROR: connection refused".data (by decide)⟩

/-- Counterexample to C2 as stated: the line
`2024-13-40 25:61:61 boom` matches the timestamp pattern syntactically,
its timestamp substring is invalid (month 13), yet `parseLogLine`
returns the trimmed remainder `boom` as the message, not the entire
original line. -/
theorem timestamp_parse_failure_strips_prefix :
    matchTimestampRegex "2024-13-40 25:61:61 boom".data
      = some ("2024-13-40 25:61:61".data, "boom".data) ∧
    jsNewDate 0 (jsTransform "2024-13-40 25:61:61".data) = none ∧
    parseLogLine 0 "2024-13-40 25:61:61 boom".data = ⟨none, "boom".data⟩ ∧
    ¬ (parseLogLine 0 "2024-13-40 25:61:61 boom".data).message
        = "2024-13-40 25:61:61 boom".data := by
  refine ⟨?_, ?_, ?_, ?_⟩ <;> decide

/-- C2 (amended).  For every complete line whose prefix matches the
leading-timestamp pattern syntactically but whose timestamp substring
does not parse to a valid instant, the timestamp is `none` and the
message is the trimmed remainder after the matched prefix (the prefix
is stripped, not restored). -/
theorem parseLogLine_invalid_timestamp (tz : Int) (line ts rest : List Char)
    (hm : matchTimestampRegex line = some (ts, rest))
    (hd : jsNewDate tz (jsTransform ts) = none) :
    parseLogLine tz line = ⟨none, jsTrim rest⟩ := by
  simp [parseLogLine, hm, hd]

/-- Witness for C2 (amended): an impossible date with a `Z` suffix. -/
theorem parseLogLine_invalid_timestamp_witness :
    parseLogLine 0 "2024-02-30T12:00:00Z x".data = ⟨none, "x".data⟩ :=
  parseLogLine_invalid_timestamp 0 _ "2024-02-30T12:00:00Z".data "x".data
    (by decide) (by decide)
